import Mathlib

/-!
Shallow embedding of the collection-indexing and error-classification core of
`pdfium-render` (files `src/signatures.rs` and `src/page_annotation_link.rs`),
together with theorems settling the specification claims about it.

The native Pdfium layer is abstracted behind interface records (mirroring the
`PdfiumLibraryBindings` trait object the wrappers hold); mocks instantiate it
for concrete scenarios.  Machine integers are modelled as `Nat`/`Int` with
explicit `% 2^w` at the points where the Rust code performs `as` casts or
wrapping arithmetic.
-/

/-- Modelled from the spec: the native error taxonomy (`error.rs` is not part
of the examined sources).  The native last-error mechanism either reports a
specific cause code or nothing; `Unknown` is the explicitly-named sub-kind used
when no specific cause was reported. -/
inductive PdfiumInternalError where
  | Unknown : PdfiumInternalError
  | Code : Nat → PdfiumInternalError
deriving DecidableEq, Repr

/-- Modelled from the spec: the wrapper-level error taxonomy (`error.rs` is not
part of the examined sources): a caller-contract out-of-bounds error, and a
typed library-internal error carrying a `PdfiumInternalError`. -/
inductive PdfiumError where
  | SignatureIndexOutOfBounds : PdfiumError
  | PdfiumLibraryInternalError : PdfiumInternalError → PdfiumError
deriving DecidableEq, Repr

/-- A `PdfSignature` element: wraps the native signature handle together with
the owning document handle (`PdfSignature::from_pdfium(handle, document)`).
Handles are modelled as `Nat`, with `0` as the null handle. -/
structure PdfSignature where
  handle : Nat
  document : Nat
deriving DecidableEq, Repr

/-- A record of one native call issued by the signatures collection, used to
state the no-native-call-on-out-of-bounds property. -/
inductive NativeCall where
  | getSignatureCount : Nat → NativeCall
  | getSignatureObject : Nat → Int → NativeCall
  | getLastError : NativeCall
deriving DecidableEq, Repr

/-- Is this native call a fetch-by-index call (`FPDF_GetSignatureObject`)? -/
def NativeCall.isFetchByIndex : NativeCall → Bool
  | .getSignatureObject _ _ => true
  | _ => false

/-- The document-level slice of the `PdfiumLibraryBindings` interface used by
`PdfSignatures`: the count call returns a `c_int` (modelled as `Int`), the
indexed-fetch call takes a `c_int` index and returns a handle (`0` = null),
and the last-error query returns an optional error code. -/
structure SigBindings where
  FPDF_GetSignatureCount : Nat → Int
  FPDF_GetSignatureObject : Nat → Int → Nat
  get_pdfium_last_error : Option PdfiumInternalError

/-- The Rust cast `c_int as u16`: the `i32` two's-complement bit pattern
(`% 2^32`) truncated to its low 16 bits (`% 2^16`). -/
def i32_as_u16 (v : Int) : Nat :=
  ((v % 4294967296) % 65536).toNat

/-- The `PdfSignatures` collection view: a back-reference to the owning
document (modelled by its handle) and the bindings interface reached through
it. -/
structure PdfSignatures where
  bindings : SigBindings
  document : Nat

/-- `PdfSignatures::len`: a live native count query, cast `as u16`. -/
def PdfSignatures.len (s : PdfSignatures) : Nat :=
  i32_as_u16 (s.bindings.FPDF_GetSignatureCount s.document)

/-- `PdfSignatures::is_empty`: `len() == 0`. -/
def PdfSignatures.is_empty (s : PdfSignatures) : Bool :=
  s.len == 0

/-- A half-open index range over the `u16` index type, mirroring
`Range<PdfSignatureIndex>`. -/
structure U16Range where
  start : Nat
  stop : Nat
deriving DecidableEq, Repr

/-- Membership test of a half-open index range. -/
def U16Range.contains (r : U16Range) (i : Nat) : Bool :=
  r.start ≤ i && i < r.stop

/-- An inclusive index range over the `u16` index type, mirroring
`RangeInclusive<PdfSignatureIndex>`. -/
structure U16RangeInclusive where
  start : Nat
  last : Nat
deriving DecidableEq, Repr

/-- `PdfSignatures::as_range`: `0..self.len()`. -/
def PdfSignatures.as_range (s : PdfSignatures) : U16Range :=
  ⟨0, s.len⟩

/-- `PdfSignatures::as_range_inclusive`: `0..=0` when empty, else
`0..=(self.len() - 1)`. -/
def PdfSignatures.as_range_inclusive (s : PdfSignatures) : U16RangeInclusive :=
  if s.is_empty then ⟨0, 0⟩ else ⟨0, s.len - 1⟩

/-- `PdfSignatures::get`: bounds-check against `len()`, then fetch by index,
then classify a null handle through the last-error query.  The second
component is the list of native calls issued, in order. -/
def PdfSignatures.get (s : PdfSignatures) (index : Nat) :
    Except PdfiumError PdfSignature × List NativeCall :=
  if index ≥ s.len then
    (.error .SignatureIndexOutOfBounds, [.getSignatureCount s.document])
  else
    let handle := s.bindings.FPDF_GetSignatureObject s.document (index : Int)
    if handle = 0 then
      match s.bindings.get_pdfium_last_error with
      | some e =>
          (.error (.PdfiumLibraryInternalError e),
            [.getSignatureCount s.document, .getSignatureObject s.document (index : Int),
              .getLastError])
      | none =>
          (.error (.PdfiumLibraryInternalError .Unknown),
            [.getSignatureCount s.document, .getSignatureObject s.document (index : Int),
              .getLastError])
    else
      (.ok ⟨handle, s.document⟩,
        [.getSignatureCount s.document, .getSignatureObject s.document (index : Int)])

/-- `PdfSignaturesIterator`: the collection plus a `u16` cursor starting at
`0`. -/
structure PdfSignaturesIterator where
  signatures : PdfSignatures
  next_index : Nat

/-- `PdfSignaturesIterator::next` with release-build overflow semantics: call
`get` at the cursor, increment the `u16` cursor (wrapping at `2^16`), and
discard any error via `.ok()`. -/
def PdfSignaturesIterator.next (it : PdfSignaturesIterator) :
    Option PdfSignature × PdfSignaturesIterator :=
  let next := it.signatures.get it.next_index
  (next.fst.toOption, { it with next_index := (it.next_index + 1) % 65536 })

/-- `PdfSignaturesIterator::next` with debug-build overflow semantics: the
`u16` cursor increment panics (modelled as `none`) when the cursor is already
`65535`. -/
def PdfSignaturesIterator.nextChecked (it : PdfSignaturesIterator) :
    Option (Option PdfSignature × PdfSignaturesIterator) :=
  if it.next_index + 1 < 65536 then
    some ((it.signatures.get it.next_index).fst.toOption,
      { it with next_index := it.next_index + 1 })
  else
    none

/-- Consuming the iterator the way a `for` loop does: repeatedly call `next`
and collect the yielded elements until the first `none` (or until fuel runs
out). -/
def iterToList : Nat → PdfSignaturesIterator → List PdfSignature
  | 0, _ => []
  | fuel + 1, it =>
    match it.next with
    | (none, _) => []
    | (some x, it') => x :: iterToList fuel it'

/-- The `u16`-cast length is always below `2^16`. -/
theorem PdfSignatures.len_lt (s : PdfSignatures) : s.len < 65536 := by
  have h : (0 : Int) < 65536 := by decide
  have := Int.emod_lt_of_pos (s.bindings.FPDF_GetSignatureCount s.document % 4294967296) h
  unfold PdfSignatures.len i32_as_u16
  omega

/-- C1: for every signatures collection and every index at or past `len()`,
`get` returns the `SignatureIndexOutOfBounds` error and issues no native
fetch-by-index call (`FPDF_GetSignatureObject` appears zero times in the list
of issued calls). -/
theorem get_out_of_bounds (s : PdfSignatures) (i : Nat) (h : i ≥ s.len) :
    (s.get i).fst = .error .SignatureIndexOutOfBounds ∧
      ((s.get i).snd.countP fun c => c.isFetchByIndex) = 0 := by
  unfold PdfSignatures.get
  simp [h, List.countP, List.countP.go, NativeCall.isFetchByIndex]

/-- Mock bindings reporting a count of 3 with distinct non-null handles at
indices 0, 1, 2. -/
def sig3 : PdfSignatures :=
  ⟨⟨fun _ => 3,
    fun _ i => if i = 0 then 10 else if i = 1 then 20 else if i = 2 then 30 else 0,
    none⟩, 7⟩

/-- C1 witness: at index 3 of a collection of length 3, `get` is out of bounds
and fetches nothing. -/
theorem get_out_of_bounds_witness :
    3 ≥ sig3.len ∧
      ((sig3.get 3).fst = .error .SignatureIndexOutOfBounds ∧
        ((sig3.get 3).snd.countP fun c => c.isFetchByIndex) = 0) :=
  ⟨by decide, get_out_of_bounds sig3 3 (by decide)⟩

/-- C2: for every in-bounds index whose native fetch returns the null handle,
`get` classifies through the last-error query: a reported code is surfaced as
`PdfiumLibraryInternalError` carrying that code, an absent code surfaces
`PdfiumLibraryInternalError Unknown`; the result is never
`SignatureIndexOutOfBounds` and never a success. -/
theorem get_null_handle_classified (s : PdfSignatures) (i : Nat)
    (hi : i < s.len) (h0 : s.bindings.FPDF_GetSignatureObject s.document (i : Int) = 0) :
    (∀ e, s.bindings.get_pdfium_last_error = some e →
        (s.get i).fst = .error (.PdfiumLibraryInternalError e)) ∧
      (s.bindings.get_pdfium_last_error = none →
        (s.get i).fst = .error (.PdfiumLibraryInternalError .Unknown)) ∧
      (s.get i).fst ≠ .error .SignatureIndexOutOfBounds ∧
      ∀ sig, (s.get i).fst ≠ .ok sig := by
  have hge : ¬ i ≥ s.len := by omega
  refine ⟨?_, ?_, ?_, ?_⟩
  · intro e he
    unfold PdfSignatures.get
    simp [hge, h0, he]
  · intro he
    unfold PdfSignatures.get
    simp [hge, h0, he]
  · unfold PdfSignatures.get
    simp only [hge, if_false, h0, if_pos rfl, ite_true]
    cases s.bindings.get_pdfium_last_error <;> simp
  · intro sig
    unfold PdfSignatures.get
    simp only [hge, if_false, h0, if_pos rfl, ite_true]
    cases s.bindings.get_pdfium_last_error <;> simp

/-- Mock bindings: count 2, every fetch returns the null handle, last error
reports code 9. -/
def sigNullCoded : PdfSignatures :=
  ⟨⟨fun _ => 2, fun _ _ => 0, some (.Code 9)⟩, 4⟩

/-- Mock bindings: count 2, every fetch returns the null handle, no last
error reported. -/
def sigNullSilent : PdfSignatures :=
  ⟨⟨fun _ => 2, fun _ _ => 0, none⟩, 4⟩

/-- C2 witness: with a reported code 9 the null handle at in-bounds index 0
surfaces that code; with no reported code it surfaces `Unknown`; neither is an
out-of-bounds error. -/
theorem get_null_handle_classified_witness :
    (0 < sigNullCoded.len ∧
        sigNullCoded.bindings.FPDF_GetSignatureObject sigNullCoded.document 0 = 0 ∧
        (sigNullCoded.get 0).fst = .error (.PdfiumLibraryInternalError (.Code 9))) ∧
      (0 < sigNullSilent.len ∧
        sigNullSilent.bindings.FPDF_GetSignatureObject sigNullSilent.document 0 = 0 ∧
        (sigNullSilent.get 0).fst = .error (.PdfiumLibraryInternalError .Unknown) ∧
        (sigNullSilent.get 0).fst ≠ .error .SignatureIndexOutOfBounds) :=
  ⟨⟨by decide, by decide,
      (get_null_handle_classified sigNullCoded 0 (by decide) (by decide)).1 (.Code 9) rfl⟩,
    ⟨by decide, by decide,
      (get_null_handle_classified sigNullSilent 0 (by decide) (by decide)).2.1 rfl,
      (get_null_handle_classified sigNullSilent 0 (by decide) (by decide)).2.2.1⟩⟩

/-- C5: for a collection with `len() == 0`, `is_empty()` is true, `as_range()`
is the empty range `0..0` (containing no index), and `as_range_inclusive()`
degenerates to the placeholder `0..=0` instead of underflowing on `len()-1`;
for a non-empty collection `as_range_inclusive()` is `0..=(len()-1)`. -/
theorem empty_collection_ranges (s : PdfSignatures) :
    (s.len = 0 →
        s.is_empty = true ∧ s.as_range = ⟨0, 0⟩ ∧
          (∀ i, s.as_range.contains i = false) ∧ s.as_range_inclusive = ⟨0, 0⟩) ∧
      (s.len ≠ 0 → s.as_range_inclusive = ⟨0, s.len - 1⟩) := by
  constructor
  · intro h
    refine ⟨?_, ?_, ?_, ?_⟩
    · simp [PdfSignatures.is_empty, h]
    · simp [PdfSignatures.as_range, h]
    · intro i
      simp [PdfSignatures.as_range, U16Range.contains, h]
    · simp [PdfSignatures.as_range_inclusive, PdfSignatures.is_empty, h]
  · intro h
    simp [PdfSignatures.as_range_inclusive, PdfSignatures.is_empty, h]

/-- Mock bindings reporting a count of 0. -/
def sigEmpty : PdfSignatures :=
  ⟨⟨fun _ => 0, fun _ _ => 0, none⟩, 2⟩

/-- C5 witness: the empty mock collection has `is_empty`, the empty range and
the `0..=0` placeholder; the three-element mock has inclusive range `0..=2`. -/
theorem empty_collection_ranges_witness :
    (sigEmpty.len = 0 ∧
        sigEmpty.is_empty = true ∧ sigEmpty.as_range = ⟨0, 0⟩ ∧
          sigEmpty.as_range.contains 0 = false ∧ sigEmpty.as_range_inclusive = ⟨0, 0⟩) ∧
      (sig3.len ≠ 0 ∧ sig3.as_range_inclusive = ⟨0, sig3.len - 1⟩) :=
  ⟨⟨by decide,
      ((empty_collection_ranges sigEmpty).1 rfl).1,
      ((empty_collection_ranges sigEmpty).1 rfl).2.1,
      ((empty_collection_ranges sigEmpty).1 rfl).2.2.1 0,
      ((empty_collection_ranges sigEmpty).1 rfl).2.2.2⟩,
    ⟨by decide, (empty_collection_ranges sig3).2 (by decide)⟩⟩

/-- C6: with the mock reporting count 3 and distinct non-null handles 10, 20,
30 at indices 0, 1, 2, each in-bounds `get` succeeds with the respective
handle (pairwise distinct) and `get 3` is out of bounds. -/
theorem count_three_scenario :
    sig3.len = 3 ∧
      (sig3.get 0).fst = .ok ⟨10, 7⟩ ∧
      (sig3.get 1).fst = .ok ⟨20, 7⟩ ∧
      (sig3.get 2).fst = .ok ⟨30, 7⟩ ∧
      (sig3.get 3).fst = .error .SignatureIndexOutOfBounds ∧
      (10 : Nat) ≠ 20 ∧ (10 : Nat) ≠ 30 ∧ (20 : Nat) ≠ 30 :=
  ⟨rfl, rfl, rfl, rfl, rfl, by decide, by decide, by decide⟩

/-- C9: `len()` applies the Rust `as` cast from the native `c_int` count to
the `u16` index type, so it equals the native count modulo `2^16` for every
count; a native count of `-1` is reported as length `65535`. -/
theorem len_is_count_mod_u16 (s : PdfSignatures) :
    ((s.len : Int) = s.bindings.FPDF_GetSignatureCount s.document % 65536) ∧
      (s.bindings.FPDF_GetSignatureCount s.document = -1 → s.len = 65535) := by
  have key : (s.len : Int) = s.bindings.FPDF_GetSignatureCount s.document % 65536 := by
    unfold PdfSignatures.len i32_as_u16
    rw [Int.toNat_of_nonneg (Int.emod_nonneg _ (by decide))]
    rw [Int.emod_emod_of_dvd _ (by decide : (65536 : Int) ∣ 4294967296)]
  refine ⟨key, fun h => ?_⟩
  have : (s.len : Int) = 65535 := by rw [key, h]; decide
  omega

/-- Mock bindings whose native count is the error sentinel `-1`. -/
def sigNegCount : PdfSignatures :=
  ⟨⟨fun _ => -1, fun _ _ => 0, none⟩, 1⟩

/-- C9 witness: the `-1` native count is reported as length `65535`. -/
theorem len_is_count_mod_u16_witness :
    sigNegCount.bindings.FPDF_GetSignatureCount sigNegCount.document = -1 ∧
      sigNegCount.len = 65535 :=
  ⟨by decide, (len_is_count_mod_u16 sigNegCount).2 (by decide)⟩

/-- In-bounds fetch with a non-null handle succeeds with the fetched handle. -/
theorem PdfSignatures.get_ok (s : PdfSignatures) (i : Nat) (hi : i < s.len)
    (hne : s.bindings.FPDF_GetSignatureObject s.document (i : Int) ≠ 0) :
    (s.get i).fst =
      .ok ⟨s.bindings.FPDF_GetSignatureObject s.document (i : Int), s.document⟩ := by
  have hge : ¬ i ≥ s.len := by omega
  unfold PdfSignatures.get
  simp [hge, hne]

/-- One iterator step: an in-bounds, non-null fetch yields the wrapped handle
and advances the cursor by one (mod `2^16`). -/
theorem PdfSignaturesIterator.next_ok (s : PdfSignatures) (j : Nat) (hj : j < s.len)
    (hne : s.bindings.FPDF_GetSignatureObject s.document (j : Int) ≠ 0) :
    PdfSignaturesIterator.next ⟨s, j⟩ =
      (some ⟨s.bindings.FPDF_GetSignatureObject s.document (j : Int), s.document⟩,
        ⟨s, (j + 1) % 65536⟩) := by
  show ((s.get j).fst.toOption, (⟨s, (j + 1) % 65536⟩ : PdfSignaturesIterator)) = _
  rw [PdfSignatures.get_ok s j hj hne]
  rfl

/-- One iterator step: an in-bounds fetch returning the null handle yields
`none` (the error is discarded by `.ok()`) yet still advances the cursor. -/
theorem PdfSignaturesIterator.next_nullFail (s : PdfSignatures) (j : Nat) (hj : j < s.len)
    (h0 : s.bindings.FPDF_GetSignatureObject s.document (j : Int) = 0) :
    PdfSignaturesIterator.next ⟨s, j⟩ = (none, ⟨s, (j + 1) % 65536⟩) := by
  have hge : ¬ j ≥ s.len := by omega
  unfold PdfSignaturesIterator.next PdfSignatures.get
  cases h : s.bindings.get_pdfium_last_error <;> simp [hge, h0, h, Except.toOption]

/-- Iterator truncation, generalized over the start cursor: with non-null
fetches on `[j, k)` and a null fetch at in-bounds `k`, consuming the iterator
from cursor `j ≤ k` yields exactly the elements at indices `j, ..., k-1` in
order. -/
theorem iterToList_truncates (s : PdfSignatures) (k : Nat) (hk : k < s.len)
    (hfail : s.bindings.FPDF_GetSignatureObject s.document (k : Int) = 0) :
    ∀ fuel j, j ≤ k → k - j ≤ fuel →
      (∀ i, j ≤ i → i < k → s.bindings.FPDF_GetSignatureObject s.document (i : Int) ≠ 0) →
      iterToList fuel ⟨s, j⟩ =
        (List.range' j (k - j)).map
          (fun i => ⟨s.bindings.FPDF_GetSignatureObject s.document (i : Int), s.document⟩) := by
  intro fuel
  induction fuel with
  | zero =>
    intro j hj hfuel _
    have h0 : k - j = 0 := Nat.le_zero.mp hfuel
    simp [iterToList, h0]
  | succ fuel ih =>
    intro j hj hfuel hok
    rcases eq_or_lt_of_le hj with heq | hlt
    · subst heq
      simp [iterToList, PdfSignaturesIterator.next_nullFail s j hk hfail]
    · have hjlen : j < s.len := lt_trans hlt hk
      have hne := hok j le_rfl hlt
      have hcur : (j + 1) % 65536 = j + 1 := by
        have := s.len_lt
        omega
      have hrec := ih (j + 1) hlt (by omega) (fun i hi1 hi2 => hok i (by omega) hi2)
      have hkj : k - j = (k - (j + 1)) + 1 := by omega
      rw [hkj, List.range'_succ]
      simp only [List.map_cons]
      rw [← hrec]
      simp [iterToList, PdfSignaturesIterator.next_ok s j hjlen hne, hcur]

/-- C3: iterating a collection whose fetches succeed below `k` and fail at
in-bounds index `k` (`k < N = len()`) yields exactly the first `k` elements in
order (no element skipped, no error propagated), then ends: `next` at cursor
`k` yields `none`; and the cursor advances by one on every `next` call whether
or not `get` succeeded. -/
theorem iteration_truncates_at_failure (s : PdfSignatures) (N k fuel : Nat)
    (hN : s.len = N) (hk : k < N)
    (hok : ∀ i, i < k → s.bindings.FPDF_GetSignatureObject s.document (i : Int) ≠ 0)
    (hfail : s.bindings.FPDF_GetSignatureObject s.document (k : Int) = 0)
    (hfuel : k ≤ fuel) :
    iterToList fuel ⟨s, 0⟩ =
        (List.range k).map
          (fun i => ⟨s.bindings.FPDF_GetSignatureObject s.document (i : Int), s.document⟩) ∧
      (iterToList fuel ⟨s, 0⟩).length = k ∧
      (PdfSignaturesIterator.next ⟨s, k⟩).fst = none ∧
      ∀ j : Nat, j < 65535 →
        (PdfSignaturesIterator.next ⟨s, j⟩).snd.next_index = j + 1 := by
  have hklen : k < s.len := by omega
  have hmain := iterToList_truncates s k hklen hfail fuel 0 (Nat.zero_le k) (by omega)
    (fun i _ hi => hok i hi)
  have hlist : iterToList fuel ⟨s, 0⟩ =
      (List.range k).map
        (fun i => ⟨s.bindings.FPDF_GetSignatureObject s.document (i : Int), s.document⟩) := by
    rw [hmain, List.range_eq_range']
    simp
  refine ⟨hlist, ?_, ?_, ?_⟩
  · rw [hlist]
    simp
  · rw [PdfSignaturesIterator.next_nullFail s k hklen hfail]
  · intro j hj
    simp [PdfSignaturesIterator.next, Nat.mod_eq_of_lt (by omega : j + 1 < 65536)]

/-- Mock bindings: count 3, a non-null handle at index 0, the null handle at
index 1 (the forced failure), a non-null handle at index 2. -/
def sigFailAt1 : PdfSignatures :=
  ⟨⟨fun _ => 3, fun _ i => if i = 0 then 10 else if i = 2 then 30 else 0, none⟩, 7⟩

/-- C3 witness: with count 3 and a forced failure at index 1, iteration yields
exactly one element (index 0), `next` at cursor 1 yields `none`, and the
cursor still advances (e.g. from 5 to 6). -/
theorem iteration_truncates_at_failure_witness :
    (sigFailAt1.len = 3 ∧ 1 < 3 ∧
        (∀ i : Nat, i < 1 →
          sigFailAt1.bindings.FPDF_GetSignatureObject sigFailAt1.document (i : Int) ≠ 0) ∧
        sigFailAt1.bindings.FPDF_GetSignatureObject sigFailAt1.document (1 : Int) = 0 ∧
        1 ≤ 5) ∧
      iterToList 5 ⟨sigFailAt1, 0⟩ =
          (List.range 1).map
            (fun i => ⟨sigFailAt1.bindings.FPDF_GetSignatureObject sigFailAt1.document (i : Int),
              sigFailAt1.document⟩) ∧
      (iterToList 5 ⟨sigFailAt1, 0⟩).length = 1 ∧
      (PdfSignaturesIterator.next ⟨sigFailAt1, 1⟩).fst = none ∧
      (PdfSignaturesIterator.next ⟨sigFailAt1, 5⟩).snd.next_index = 6 :=
  ⟨⟨by decide, by decide,
      by intro i hi; have h0 : i = 0 := Nat.lt_one_iff.mp hi; subst h0; decide,
      by decide, by decide⟩,
    (iteration_truncates_at_failure sigFailAt1 3 1 5 (by decide) (by decide)
      (by intro i hi; have h0 : i = 0 := Nat.lt_one_iff.mp hi; subst h0; decide)
      (by decide) (by decide)).1,
    (iteration_truncates_at_failure sigFailAt1 3 1 5 (by decide) (by decide)
      (by intro i hi; have h0 : i = 0 := Nat.lt_one_iff.mp hi; subst h0; decide)
      (by decide) (by decide)).2.1,
    (iteration_truncates_at_failure sigFailAt1 3 1 5 (by decide) (by decide)
      (by intro i hi; have h0 : i = 0 := Nat.lt_one_iff.mp hi; subst h0; decide)
      (by decide) (by decide)).2.2.1,
    (iteration_truncates_at_failure sigFailAt1 3 1 5 (by decide) (by decide)
      (by intro i hi; have h0 : i = 0 := Nat.lt_one_iff.mp hi; subst h0; decide)
      (by decide) (by decide)).2.2.2 5 (by decide)⟩

/-- C10: `next` increments the `u16` cursor on every call regardless of the
`get` outcome; at cursor `65535` the release-semantics increment wraps to `0`
(restarting iteration at index 0) while the debug-semantics increment
(`nextChecked`) overflows and panics (modelled as `none`), so repeatedly
calling `next` is not total for every call count. -/
theorem cursor_increment_overflows (s : PdfSignatures) :
    (∀ j : Nat, (PdfSignaturesIterator.next ⟨s, j⟩).snd.next_index = (j + 1) % 65536) ∧
      (PdfSignaturesIterator.next ⟨s, 65535⟩).snd.next_index = 0 ∧
      PdfSignaturesIterator.nextChecked ⟨s, 65535⟩ = none ∧
      ∀ j : Nat, j + 1 < 65536 →
        PdfSignaturesIterator.nextChecked ⟨s, j⟩ =
          some ((s.get j).fst.toOption, ⟨s, j + 1⟩) := by
  refine ⟨?_, ?_, ?_, ?_⟩
  · intro j
    simp [PdfSignaturesIterator.next]
  · simp [PdfSignaturesIterator.next]
  · simp [PdfSignaturesIterator.nextChecked]
  · intro j hj
    simp [PdfSignaturesIterator.nextChecked, hj]

/-- C10 witness: on the three-element mock, the cursor goes from 0 to 1, wraps
from 65535 to 0 in release semantics, and the debug-semantics step at 65535
panics while the one at 0 succeeds. -/
theorem cursor_increment_overflows_witness :
    (PdfSignaturesIterator.next ⟨sig3, 0⟩).snd.next_index = (0 + 1) % 65536 ∧
      (PdfSignaturesIterator.next ⟨sig3, 65535⟩).snd.next_index = 0 ∧
      PdfSignaturesIterator.nextChecked ⟨sig3, 65535⟩ = none ∧
      (0 + 1 < 65536 ∧
        PdfSignaturesIterator.nextChecked ⟨sig3, 0⟩ =
          some ((sig3.get 0).fst.toOption, ⟨sig3, 1⟩)) :=
  ⟨(cursor_increment_overflows sig3).1 0,
    (cursor_increment_overflows sig3).2.1,
    (cursor_increment_overflows sig3).2.2.1,
    by decide,
    (cursor_increment_overflows sig3).2.2.2 0 (by decide)⟩

/-- `PdfPoints`: a page-coordinate value (`f32` in the source; modelled as a
rational since this layer only passes it through unchanged). -/
structure PdfPoints where
  value : Rat
deriving DecidableEq

/-- Modelled from the spec: `is_true` translates the native `FPDF_BOOL`
success sentinel (`bindings.rs` is not part of the examined sources): a
nonzero return means success. -/
def is_true (v : Int) : Bool :=
  v ≠ 0

/-- `PdfLink::from_pdfium`: wraps a native link handle plus the document
handle (`link.rs` is not part of the examined sources; the wrapper stores the
handle pair unchanged). -/
structure PdfLink where
  handle : Nat
  document : Nat
deriving DecidableEq, Repr

/-- The per-annotation slice of the `PdfiumLibraryBindings` interface used by
the link-annotation wrapper, threaded through an explicit native-world state
`W` so that a mock can persist mutations.  Handles are `Nat` (`0` = null);
boolean mutators return the native `FPDF_BOOL` as `Int`. -/
structure AnnotBindings (W : Type) where
  FPDFAnnot_GetLink : W → Nat → W × Nat
  FPDFAnnot_SetURI : W → Nat → String → W × Int
  FPDFAnnot_SetDest : W → Nat → Nat → Rat → Rat → Rat → W × Int
  get_pdfium_last_error : W → Option PdfiumInternalError

/-- `PdfPageLinkAnnotation` (`LinkAnnot` here): the annotation handle, the
document handle reached through its objects collection, and the bindings
interface. -/
structure LinkAnnot (W : Type) where
  handle : Nat
  document : Nat
  bindings : AnnotBindings W

/-- `PdfPageLinkAnnotation::link`: fetch the associated link handle; a null
handle surfaces `PdfiumLibraryInternalError Unknown`, otherwise the handle is
wrapped with the document handle. -/
def LinkAnnot.link {W : Type} (a : LinkAnnot W) (w : W) :
    W × Except PdfiumError PdfLink :=
  let step := a.bindings.FPDFAnnot_GetLink w a.handle
  if step.snd = 0 then
    (step.fst, .error (.PdfiumLibraryInternalError .Unknown))
  else
    (step.fst, .ok ⟨step.snd, a.document⟩)

/-- `PdfPageLinkAnnotation::set_link`: apply a URI destination; a native
false return surfaces `PdfiumLibraryInternalError Unknown`. -/
def LinkAnnot.set_link {W : Type} (a : LinkAnnot W) (w : W) (uri : String) :
    W × Except PdfiumError Unit :=
  let step := a.bindings.FPDFAnnot_SetURI w a.handle uri
  if is_true step.snd then
    (step.fst, .ok ())
  else
    (step.fst, .error (.PdfiumLibraryInternalError .Unknown))

/-- `PdfPageLinkAnnotation::set_dest`: apply a page-plus-3D-point destination;
a native false return surfaces `PdfiumLibraryInternalError Unknown`. -/
def LinkAnnot.set_dest {W : Type} (a : LinkAnnot W) (w : W) (page_dest : Nat)
    (x y z : PdfPoints) : W × Except PdfiumError Unit :=
  let step := a.bindings.FPDFAnnot_SetDest w a.handle page_dest x.value y.value z.value
  if is_true step.snd then
    (step.fst, .ok ())
  else
    (step.fst, .error (.PdfiumLibraryInternalError .Unknown))

/-- Mock native layer whose boolean mutators all succeed. -/
def annotTrue : LinkAnnot Unit :=
  ⟨5, 9, ⟨fun w _ => (w, 0), fun w _ _ => (w, 1), fun w _ _ _ _ _ => (w, 1), fun _ => none⟩⟩

/-- Mock native layer whose boolean mutators all fail, with no last error
set. -/
def annotFalse : LinkAnnot Unit :=
  ⟨5, 9, ⟨fun w _ => (w, 0), fun w _ _ => (w, 0), fun w _ _ _ _ _ => (w, 0), fun _ => none⟩⟩

/-- C7: `set_dest(page, x=10.0, y=20.0, z=0.0)` on a link annotation returns
`Ok(())` when the native boolean mutator returns true, and returns
`PdfiumLibraryInternalError Unknown` when it returns false with no last error
set. -/
theorem set_dest_scenario :
    (annotTrue.set_dest () 12 ⟨10⟩ ⟨20⟩ ⟨0⟩).snd = .ok () ∧
      (annotFalse.set_dest () 12 ⟨10⟩ ⟨20⟩ ⟨0⟩).snd =
        .error (.PdfiumLibraryInternalError .Unknown) ∧
      annotFalse.bindings.get_pdfium_last_error () = none :=
  ⟨rfl, rfl, rfl⟩

/-- Mock native layer whose boolean mutators all fail and whose link handle is
null, while the native last error reports the specific code 3. -/
def annotCoded : LinkAnnot Unit :=
  ⟨5, 9, ⟨fun w _ => (w, 0), fun w _ _ => (w, 0), fun w _ _ _ _ _ => (w, 0),
    fun _ => some (.Code 3)⟩⟩

/-- C4 counterexample: although the native last error reports the specific
code 3, the failed `set_link` (likewise `set_dest` and the null-handle
`link()`) returns `PdfiumLibraryInternalError Unknown`, not the typed error
carrying code 3 — so these operations are not classified via the last-error
mechanism as the claim states. -/
theorem set_link_ignores_last_error :
    annotCoded.bindings.get_pdfium_last_error () = some (.Code 3) ∧
      is_true (annotCoded.bindings.FPDFAnnot_SetURI () 5 "u").snd = false ∧
      (annotCoded.set_link () "u").snd = .error (.PdfiumLibraryInternalError .Unknown) ∧
      (annotCoded.set_link () "u").snd ≠ .error (.PdfiumLibraryInternalError (.Code 3)) ∧
      (annotCoded.set_dest () 12 ⟨10⟩ ⟨20⟩ ⟨0⟩).snd ≠
        .error (.PdfiumLibraryInternalError (.Code 3)) ∧
      (annotCoded.link ()).snd ≠ .error (.PdfiumLibraryInternalError (.Code 3)) := by
  refine ⟨rfl, rfl, rfl, ?_, ?_, ?_⟩ <;>
    simp [LinkAnnot.set_link, LinkAnnot.set_dest, LinkAnnot.link, annotCoded, is_true]

/-- C4 amended: when the native call signals failure (a false boolean return,
or a null link handle), `set_link`, `set_dest` and `link` always return
`PdfiumLibraryInternalError Unknown`, whatever the native last-error
mechanism reports: these operations never consult it. -/
theorem mutator_failure_always_unknown {W : Type} (a : LinkAnnot W) (w : W)
    (uri : String) (page_dest : Nat) (x y z : PdfPoints) :
    (is_true (a.bindings.FPDFAnnot_SetURI w a.handle uri).snd = false →
        (a.set_link w uri).snd = .error (.PdfiumLibraryInternalError .Unknown)) ∧
      (is_true (a.bindings.FPDFAnnot_SetDest w a.handle page_dest
            x.value y.value z.value).snd = false →
        (a.set_dest w page_dest x y z).snd =
          .error (.PdfiumLibraryInternalError .Unknown)) ∧
      ((a.bindings.FPDFAnnot_GetLink w a.handle).snd = 0 →
        (a.link w).snd = .error (.PdfiumLibraryInternalError .Unknown)) := by
  refine ⟨?_, ?_, ?_⟩
  · intro h
    unfold LinkAnnot.set_link
    simp [h]
  · intro h
    unfold LinkAnnot.set_dest
    simp [h]
  · intro h
    unfold LinkAnnot.link
    simp [h]

/-- C4 amended witness: on the failing mock that reports last-error code 3,
each of the three operations surfaces `Unknown`. -/
theorem mutator_failure_always_unknown_witness :
    (is_true (annotCoded.bindings.FPDFAnnot_SetURI () 5 "u").snd = false ∧
        (annotCoded.set_link () "u").snd = .error (.PdfiumLibraryInternalError .Unknown)) ∧
      (is_true (annotCoded.bindings.FPDFAnnot_SetDest () 5 12 10 20 0).snd = false ∧
        (annotCoded.set_dest () 12 ⟨10⟩ ⟨20⟩ ⟨0⟩).snd =
          .error (.PdfiumLibraryInternalError .Unknown)) ∧
      ((annotCoded.bindings.FPDFAnnot_GetLink () 5).snd = 0 ∧
        (annotCoded.link ()).snd = .error (.PdfiumLibraryInternalError .Unknown)) :=
  ⟨⟨by decide,
      (mutator_failure_always_unknown annotCoded () "u" 12 ⟨10⟩ ⟨20⟩ ⟨0⟩).1 (by decide)⟩,
    ⟨by decide,
      (mutator_failure_always_unknown annotCoded () "u" 12 ⟨10⟩ ⟨20⟩ ⟨0⟩).2.1 (by decide)⟩,
    ⟨by decide,
      (mutator_failure_always_unknown annotCoded () "u" 12 ⟨10⟩ ⟨20⟩ ⟨0⟩).2.2 (by decide)⟩⟩

/-- Modelled from the spec: the world state of a mock native layer that
persists URI mutations — a map from annotation handle to the stored URI. -/
structure MockWorld where
  uris : Nat → Option String

/-- The non-null link handle the persisting mock reports for an annotation
handle. -/
def mockLinkHandle (annot_handle : Nat) : Nat :=
  annot_handle + 1

/-- Modelled from the spec: a mock native layer that persists `SetURI`
mutations and returns a non-null link handle for an annotation with a stored
URI. -/
def persistingMock : AnnotBindings MockWorld :=
  ⟨fun w h =>
      match w.uris h with
      | some _ => (w, mockLinkHandle h)
      | none => (w, 0),
    fun w h uri => (⟨fun h2 => if h2 = h then some uri else w.uris h2⟩, 1),
    fun w _ _ _ _ _ => (w, 1),
    fun _ => none⟩

/-- The URI the mock world associates with a link handle. -/
def MockWorld.linkURI (w : MockWorld) (link_handle : Nat) : Option String :=
  w.uris (link_handle - 1)

/-- C8: on the persisting mock native layer, `set_link uri` succeeds, and a
following `link()` on the same annotation succeeds with the non-null link
handle whose associated URI in the mock world is exactly the just-set `uri`
(set-then-get round trip). -/
theorem set_link_link_round_trip (w : MockWorld) (h doc : Nat) (uri : String) :
    ((⟨h, doc, persistingMock⟩ : LinkAnnot MockWorld).set_link w uri).snd = .ok () ∧
      (LinkAnnot.link ⟨h, doc, persistingMock⟩
          ((⟨h, doc, persistingMock⟩ : LinkAnnot MockWorld).set_link w uri).fst).snd =
        .ok ⟨mockLinkHandle h, doc⟩ ∧
      MockWorld.linkURI ((⟨h, doc, persistingMock⟩ : LinkAnnot MockWorld).set_link w uri).fst
          (mockLinkHandle h) = some uri := by
  refine ⟨rfl, ?_, ?_⟩
  · simp [LinkAnnot.set_link, LinkAnnot.link, persistingMock, is_true, mockLinkHandle]
  · simp [LinkAnnot.set_link, MockWorld.linkURI, persistingMock, is_true, mockLinkHandle]
